import Mathlib

/-!
Shallow embedding of the Modbus data-conversion engine of this repository.

Sources embedded here:
- nodes/Modbus/GenericFunctions.ts (class DataConversionUtils): decoding of
  raw 16-bit register arrays into typed values, per-rule error isolation and
  batch processing.
- nodes/ModbusDataConverter/ValidationUtils.ts (class ValidationUtils): static
  validation of conversion-rule sets, including register-overlap detection.
- the IndustrialUnits catalog (class IndustrialUnits): unit table and directed
  conversion formulas.

Modelling conventions: a JavaScript number is modelled as an exact rational
plus NaN and the two signed infinities; rounding of IEEE-754 double
arithmetic is not modelled (every value the verified claims depend on is
exactly representable). Register arrays are lists of naturals; the 16-bit
range hypotheses appear in the theorems, matching the RegisterSnapshot data
model. JavaScript 32-bit operators are modelled on bit patterns with explicit
mod 2 to the 32.
-/

namespace ModbusVerify

/-- JavaScript number: NaN, signed infinity, or a finite value (exact). -/
inductive JSNumber where
  | nan : JSNumber
  | inf : Bool → JSNumber
  | finite : ℚ → JSNumber
deriving DecidableEq, Repr

/-- JS addition on the number model (finite arithmetic kept exact). -/
def JSNumber.add : JSNumber → JSNumber → JSNumber
  | JSNumber.nan, _ => JSNumber.nan
  | _, JSNumber.nan => JSNumber.nan
  | JSNumber.inf s, JSNumber.inf t => if s = t then JSNumber.inf s else JSNumber.nan
  | JSNumber.inf s, JSNumber.finite _ => JSNumber.inf s
  | JSNumber.finite _, JSNumber.inf s => JSNumber.inf s
  | JSNumber.finite a, JSNumber.finite b => JSNumber.finite (a + b)

/-- JS subtraction on the number model. -/
def JSNumber.sub : JSNumber → JSNumber → JSNumber
  | JSNumber.nan, _ => JSNumber.nan
  | _, JSNumber.nan => JSNumber.nan
  | JSNumber.inf s, JSNumber.inf t => if s = t then JSNumber.nan else JSNumber.inf s
  | JSNumber.inf s, JSNumber.finite _ => JSNumber.inf s
  | JSNumber.finite _, JSNumber.inf s => JSNumber.inf (!s)
  | JSNumber.finite a, JSNumber.finite b => JSNumber.finite (a - b)

/-- JS multiplication on the number model. -/
def JSNumber.mul : JSNumber → JSNumber → JSNumber
  | JSNumber.nan, _ => JSNumber.nan
  | _, JSNumber.nan => JSNumber.nan
  | JSNumber.inf s, JSNumber.inf t => JSNumber.inf (s != t)
  | JSNumber.inf s, JSNumber.finite b =>
      if b = 0 then JSNumber.nan else if 0 < b then JSNumber.inf s else JSNumber.inf (!s)
  | JSNumber.finite a, JSNumber.inf s =>
      if a = 0 then JSNumber.nan else if 0 < a then JSNumber.inf s else JSNumber.inf (!s)
  | JSNumber.finite a, JSNumber.finite b => JSNumber.finite (a * b)

/-- JS division on the number model (zero is treated as positive zero). -/
def JSNumber.div : JSNumber → JSNumber → JSNumber
  | JSNumber.nan, _ => JSNumber.nan
  | _, JSNumber.nan => JSNumber.nan
  | JSNumber.inf _, JSNumber.inf _ => JSNumber.nan
  | JSNumber.inf s, JSNumber.finite b =>
      if 0 ≤ b then JSNumber.inf s else JSNumber.inf (!s)
  | JSNumber.finite _, JSNumber.inf _ => JSNumber.finite 0
  | JSNumber.finite a, JSNumber.finite b =>
      if b = 0 then (if a = 0 then JSNumber.nan else JSNumber.inf (a < 0))
      else JSNumber.finite (a / b)

/-- JS value as it can appear in a ConversionResult: null, a number, a
boolean, or an array of raw register words. -/
inductive JSValue where
  | null : JSValue
  | number : JSNumber → JSValue
  | boolean : Bool → JSValue
  | arr : List ℕ → JSValue
deriving DecidableEq, Repr

/-- The dataType union of ConversionRule in GenericFunctions.ts. -/
inductive DataType where
  | int16 | uint16 | int32 | uint32 | float32 | scaled | bitfield | bcd
deriving DecidableEq, Repr

/-- String form of a data type, as the TS string literals. -/
def DataType.toName : DataType → String
  | DataType.int16 => "int16"
  | DataType.uint16 => "uint16"
  | DataType.int32 => "int32"
  | DataType.uint32 => "uint32"
  | DataType.float32 => "float32"
  | DataType.scaled => "scaled"
  | DataType.bitfield => "bitfield"
  | DataType.bcd => "bcd"

/-- The byteOrder union of ConversionRule. -/
inductive ByteOrder where
  | big_endian | little_endian
deriving DecidableEq, Repr

/-- The optional validation block of a ConversionRule. The TS allowNaN field
is optional; an absent field behaves as false at its only use site, so it is
a plain Bool here. -/
structure ValidationSettings where
  enabled : Bool
  min : Option ℚ := none
  max : Option ℚ := none
  allowNaN : Bool := false
deriving DecidableEq, Repr

/-- The optional unitConversion block of a ConversionRule. The TS field
names are from and to; from is a Lean keyword, hence fromUnit and toUnit. -/
structure UnitConversionSpec where
  fromUnit : String
  toUnit : String
deriving DecidableEq, Repr

/-- ConversionRule of GenericFunctions.ts. startRegister is kept as a
natural number, matching the data-model invariant that it is a non-negative
integer index into the snapshot. -/
structure ConversionRule where
  name : String
  startRegister : ℕ
  dataType : DataType
  byteOrder : ByteOrder
  wordSwap : Option Bool := none
  scaleFactor : Option ℚ := none
  offset : Option ℚ := none
  decimalPlaces : Option ℤ := none
  bitMask : Option ℕ := none
  bitPosition : Option ℕ := none
  bitLength : Option ℕ := none
  validation : Option ValidationSettings := none
  unitConversion : Option UnitConversionSpec := none
deriving DecidableEq, Repr

/-- The metadata block of a ConversionResult. -/
structure Metadata where
  byteOrder : ByteOrder
  scaleFactor : Option ℚ := none
  offset : Option ℚ := none
  unitConversion : Option String := none
deriving DecidableEq, Repr

/-- ConversionResult of GenericFunctions.ts. -/
structure ConversionResult where
  name : String
  value : JSValue
  originalValue : JSValue
  dataType : DataType
  valid : Bool
  error : Option String := none
  metadata : Option Metadata := none
deriving DecidableEq, Repr

/-- DataConversionUtils.getRequiredRegisters: registers consumed per type. -/
def getRequiredRegisters : DataType → ℕ
  | DataType.int16 => 1
  | DataType.uint16 => 1
  | DataType.scaled => 1
  | DataType.bitfield => 1
  | DataType.bcd => 1
  | DataType.int32 => 2
  | DataType.uint32 => 2
  | DataType.float32 => 2

/-- Bit pattern of a JS number holding a non-negative integer, as consumed by
the 32-bit operators (ToInt32 and ToUint32 agree on the pattern). -/
def pat32 (n : ℕ) : ℕ := n % 4294967296

/-- Signed reading of a 32-bit pattern. -/
def toSigned32 (bits : ℕ) : ℤ :=
  if 2147483647 < bits % 4294967296 then ((bits % 4294967296 : ℕ) : ℤ) - 4294967296
  else ((bits % 4294967296 : ℕ) : ℤ)

/-- Bit pattern of the JS expression n << 16 for non-negative integral n. -/
def jsShl16 (n : ℕ) : ℕ := (pat32 n <<< 16) % 4294967296

/-- Bit pattern of the JS expression a | b for non-negative integral a, b. -/
def jsOr32 (a b : ℕ) : ℕ := pat32 a ||| pat32 b

/-- DataConversionUtils.convertInt16. The byteOrder parameter is accepted
and ignored exactly as in the source. -/
def convertInt16 (register : ℕ) (_byteOrder : ByteOrder) : ℤ :=
  if 32767 < register then (register : ℤ) - 65536 else (register : ℤ)

/-- DataConversionUtils.convertUint16: register & 0xFFFF. -/
def convertUint16 (register : ℕ) (_byteOrder : ByteOrder) : ℕ :=
  pat32 register &&& 65535

/-- DataConversionUtils.convertInt32. The word-swap selects which register
is first; byte order selects which of the two words is the high half. The
bitwise-or result is already a signed 32-bit value in JS, so the final
comparison with 2147483647 mirrors the (unreachable) source branch. -/
def convertInt32 (registers : List ℕ) (byteOrder : ByteOrder)
    (wordSwap : Bool := false) : ℤ :=
  let reg0 := if wordSwap then registers.getD 1 0 else registers.getD 0 0
  let reg1 := if wordSwap then registers.getD 0 0 else registers.getD 1 0
  let value : ℤ :=
    if byteOrder = ByteOrder.big_endian then toSigned32 (jsOr32 (jsShl16 reg0) reg1)
    else toSigned32 (jsOr32 (jsShl16 reg1) reg0)
  if 2147483647 < value then value - 4294967296 else value

/-- DataConversionUtils.convertUint32: same assembly, then >>> 0, which
yields the unsigned 32-bit pattern. -/
def convertUint32 (registers : List ℕ) (byteOrder : ByteOrder)
    (wordSwap : Bool := false) : ℕ :=
  let reg0 := if wordSwap then registers.getD 1 0 else registers.getD 0 0
  let reg1 := if wordSwap then registers.getD 0 0 else registers.getD 1 0
  if byteOrder = ByteOrder.big_endian then jsOr32 (jsShl16 reg0) reg1
  else jsOr32 (jsShl16 reg1) reg0

/-- IEEE-754 binary32 value of a 32-bit pattern, decoded exactly. The
resulting double is exact (binary32 embeds in binary64). -/
def decodeFloat32Bits (bits : ℕ) : JSNumber :=
  let sign := bits / 2147483648 % 2
  let expo := bits / 8388608 % 256
  let frac := bits % 8388608
  if expo = 255 then
    if frac = 0 then JSNumber.inf (sign = 1) else JSNumber.nan
  else
    let sgn : ℚ := if sign = 1 then -1 else 1
    if expo = 0 then JSNumber.finite (sgn * ((frac : ℚ) / (2 ^ 149 : ℚ)))
    else JSNumber.finite (sgn * (((8388608 + frac : ℕ) : ℚ) * (2 ^ expo : ℚ) / (2 ^ 150 : ℚ)))

/-- DataConversionUtils.convertFloat32: the DataView writes the first word
(after word swap and byte order) into bytes 0..1 and the second into bytes
2..3 of a big-endian buffer; setUint16 applies ToUint16, i.e. mod 2 to 16.
The 4 bytes are then read back as a big-endian binary32. -/
def convertFloat32 (registers : List ℕ) (byteOrder : ByteOrder)
    (wordSwap : Bool := false) : JSNumber :=
  let reg0 := if wordSwap then registers.getD 1 0 else registers.getD 0 0
  let reg1 := if wordSwap then registers.getD 0 0 else registers.getD 1 0
  let bits :=
    if byteOrder = ByteOrder.big_endian then (reg0 % 65536) * 65536 + (reg1 % 65536)
    else (reg1 % 65536) * 65536 + (reg0 % 65536)
  decodeFloat32Bits bits

/-- DataConversionUtils.convertScaled: raw word times scaleFactor (when set)
plus offset (when set); all arithmetic exact here. -/
def convertScaled (register : ℕ) (rule : ConversionRule) : ℚ :=
  let value : ℚ := (register : ℚ)
  let value := match rule.scaleFactor with
    | some sf => value * sf
    | none => value
  match rule.offset with
  | some off => value + off
  | none => value

/-- Signed int32 result of the JS expression a & b on non-negative integral
operands. -/
def jsAnd32 (a b : ℕ) : ℤ := toSigned32 (pat32 a &&& pat32 b)

/-- DataConversionUtils.convertBitfield. The source expression
rule.bitLength || 1 maps both an absent and a zero bitLength to 1. Shift
counts are taken mod 32 as JS does. For a single extracted bit the source
returns Boolean(result). -/
def convertBitfield (register : ℕ) (rule : ConversionRule) : JSValue :=
  match rule.bitMask with
  | some mask => JSValue.number (JSNumber.finite ((jsAnd32 register mask : ℤ) : ℚ))
  | none =>
    match rule.bitPosition with
    | some pos =>
      let bitLength := match rule.bitLength with
        | some l => if l = 0 then 1 else l
        | none => 1
      let mask : ℤ := toSigned32 ((1 <<< (bitLength % 32)) % 4294967296) - 1
      let shifted : ℤ := toSigned32 (pat32 register) / (2 ^ (pos % 32) : ℤ)
      let result : ℤ := toSigned32 ((shifted % 4294967296).toNat &&& (mask % 4294967296).toNat)
      if bitLength = 1 then JSValue.boolean (result ≠ 0)
      else JSValue.number (JSNumber.finite (result : ℚ))
    | none => JSValue.number (JSNumber.finite (register : ℚ))

/-- DataConversionUtils.convertBCD. The source uses the signed shift; the
sign bits it can drag in are cleared by the byte masks, so the logical shift
on the bit pattern is the same function. -/
def convertBCD (register : ℕ) (_byteOrder : ByteOrder) : ℕ :=
  let high := (pat32 register >>> 8) &&& 255
  let low := pat32 register &&& 255
  let highDecimal := ((high >>> 4) &&& 15) * 10 + (high &&& 15)
  let lowDecimal := ((low >>> 4) &&& 15) * 10 + (low &&& 15)
  highDecimal * 100 + lowDecimal

/-- The conversionMap of DataConversionUtils.applyUnitConversion, keyed by
the string from_to_to. Each arrow function is transcribed with the JS
arithmetic operators in source order. -/
def conversionMapLookup (key : String) : Option (JSNumber → JSNumber) :=
  if key = "celsius_to_fahrenheit" then
    some (fun val => ((val.mul (JSNumber.finite 9)).div (JSNumber.finite 5)).add (JSNumber.finite 32))
  else if key = "fahrenheit_to_celsius" then
    some (fun val => ((val.sub (JSNumber.finite 32)).mul (JSNumber.finite 5)).div (JSNumber.finite 9))
  else if key = "celsius_to_kelvin" then
    some (fun val => val.add (JSNumber.finite (27315 / 100)))
  else if key = "kelvin_to_celsius" then
    some (fun val => val.sub (JSNumber.finite (27315 / 100)))
  else if key = "psi_to_bar" then
    some (fun val => val.mul (JSNumber.finite (689476 / 10000000)))
  else if key = "bar_to_psi" then
    some (fun val => val.mul (JSNumber.finite (145038 / 10000)))
  else if key = "pascal_to_bar" then
    some (fun val => val.mul (JSNumber.finite (1 / 100000)))
  else if key = "bar_to_pascal" then
    some (fun val => val.mul (JSNumber.finite 100000))
  else if key = "gpm_to_lpm" then
    some (fun val => val.mul (JSNumber.finite (378541 / 100000)))
  else if key = "lpm_to_gpm" then
    some (fun val => val.mul (JSNumber.finite (264172 / 1000000)))
  else if key = "cfm_to_cmh" then
    some (fun val => val.mul (JSNumber.finite (169901 / 100000)))
  else if key = "cmh_to_cfm" then
    some (fun val => val.mul (JSNumber.finite (588578 / 1000000)))
  else if key = "hp_to_kw" then
    some (fun val => val.mul (JSNumber.finite (745699 / 1000000)))
  else if key = "kw_to_hp" then
    some (fun val => val.mul (JSNumber.finite (134102 / 100000)))
  else if key = "btu_to_kw" then
    some (fun val => val.mul (JSNumber.finite (293071 / 1000000000)))
  else if key = "kw_to_btu" then
    some (fun val => val.mul (JSNumber.finite (341214 / 100)))
  else none

/-- DataConversionUtils.applyUnitConversion: look up from_to_to in the map;
when absent, return the original value. -/
def applyUnitConversion (value : JSNumber) (conversion : UnitConversionSpec) : JSNumber :=
  let conversionKey := conversion.fromUnit ++ "_to_" ++ conversion.toUnit
  match conversionMapLookup conversionKey with
  | some converter => converter value
  | none => value

/-- Number.prototype.toFixed followed by Number(), as used for the
decimalPlaces rounding. A digits argument outside 0..100 throws a
RangeError; that is the one runtime failure reachable inside convertData.
Rounding picks the closest n / 10 to the d, ties toward the larger n. -/
def jsToFixedNumber (x : JSNumber) (d : ℤ) : Except String JSNumber :=
  if d < 0 ∨ 100 < d then
    Except.error "toFixed() digits argument must be between 0 and 100"
  else
    Except.ok (match x with
      | JSNumber.nan => JSNumber.nan
      | JSNumber.inf s => JSNumber.inf s
      | JSNumber.finite q =>
        if (10 ^ 21 : ℚ) ≤ |q| then JSNumber.finite q
        else JSNumber.finite ((⌊q * (10 ^ d.toNat : ℚ) + 1 / 2⌋ : ℚ) / (10 ^ d.toNat : ℚ)))

/-- Rendering of a JS number in messages. Integral values match the JS
string form; other renderings are only used in message text no claim
depends on. -/
def jsNumRepr : JSNumber → String
  | JSNumber.nan => "NaN"
  | JSNumber.inf true => "-Infinity"
  | JSNumber.inf false => "Infinity"
  | JSNumber.finite q => if q.den = 1 then toString q.num else toString q

/-- Rendering of a rational bound in messages. -/
def ratRepr (q : ℚ) : String :=
  if q.den = 1 then toString q.num else toString q

/-- JS comparison value < bound for a number against a finite bound. -/
def jsLtQ (x : JSNumber) (m : ℚ) : Bool :=
  match x with
  | JSNumber.nan => false
  | JSNumber.inf s => s
  | JSNumber.finite q => decide (q < m)

/-- JS comparison value > bound for a number against a finite bound. -/
def jsGtQ (x : JSNumber) (m : ℚ) : Bool :=
  match x with
  | JSNumber.nan => false
  | JSNumber.inf s => !s
  | JSNumber.finite q => decide (m < q)

/-- The max branch of DataConversionUtils.validateValue. -/
def validateValueMax (x : JSNumber) (v : ValidationSettings) : Bool × Option String :=
  match v.max with
  | some m =>
    if jsGtQ x m then
      (false, some ("Value " ++ jsNumRepr x ++ " is above maximum " ++ ratRepr m))
    else (true, none)
  | none => (true, none)

/-- DataConversionUtils.validateValue: NaN check, then min, then max;
non-numbers are accepted unchanged. -/
def validateValue (value : JSValue) (v : ValidationSettings) : Bool × Option String :=
  match value with
  | JSValue.number x =>
    if x = JSNumber.nan ∧ v.allowNaN = false then (false, some "Value is NaN")
    else
      match v.min with
      | some m =>
        if jsLtQ x m then
          (false, some ("Value " ++ jsNumRepr x ++ " is below minimum " ++ ratRepr m))
        else validateValueMax x v
      | none => validateValueMax x v
  | _ => (true, none)

/-- Metadata block built at the top of convertData. -/
def convertDataMetadata (rule : ConversionRule) : Metadata :=
  { byteOrder := rule.byteOrder
    scaleFactor := rule.scaleFactor
    offset := rule.offset
    unitConversion := rule.unitConversion.map
      (fun u => u.fromUnit ++ " to " ++ u.toUnit) }

/-- The insufficient-registers message of convertData. The available count
is a JS subtraction, so it is an integer that can be negative. -/
def insufficientMessage (required : ℕ) (available : ℤ) : String :=
  "Not enough registers available. Required: " ++ toString required ++
    ", Available: " ++ toString available

/-- The try-block of DataConversionUtils.convertData, with the one failing
operation (toFixed) surfaced in the Except error channel. Every path of the
source switch is covered; the default case of the switch is unreachable for
the closed dataType union. -/
def convertDataE (registers : List ℕ) (rule : ConversionRule) :
    Except String ConversionResult :=
  let metadata := convertDataMetadata rule
  let requiredRegisters := getRequiredRegisters rule.dataType
  if registers.length < rule.startRegister + requiredRegisters then
    Except.ok
      { name := rule.name, value := JSValue.null, originalValue := JSValue.null
        dataType := rule.dataType, valid := false
        error := some (insufficientMessage requiredRegisters
          ((registers.length : ℤ) - (rule.startRegister : ℤ)))
        metadata := some metadata }
  else
    let dataRegisters := (registers.drop rule.startRegister).take requiredRegisters
    let originalValue : JSValue :=
      if dataRegisters.length = 1 then
        JSValue.number (JSNumber.finite ((dataRegisters.getD 0 0 : ℕ) : ℚ))
      else JSValue.arr dataRegisters
    let value0 : JSValue :=
      match rule.dataType with
      | DataType.int16 =>
        JSValue.number (JSNumber.finite ((convertInt16 (dataRegisters.getD 0 0) rule.byteOrder : ℤ) : ℚ))
      | DataType.uint16 =>
        JSValue.number (JSNumber.finite ((convertUint16 (dataRegisters.getD 0 0) rule.byteOrder : ℕ) : ℚ))
      | DataType.int32 =>
        JSValue.number (JSNumber.finite ((convertInt32 dataRegisters rule.byteOrder (rule.wordSwap.getD false) : ℤ) : ℚ))
      | DataType.uint32 =>
        JSValue.number (JSNumber.finite ((convertUint32 dataRegisters rule.byteOrder (rule.wordSwap.getD false) : ℕ) : ℚ))
      | DataType.float32 =>
        JSValue.number (convertFloat32 dataRegisters rule.byteOrder (rule.wordSwap.getD false))
      | DataType.scaled =>
        JSValue.number (JSNumber.finite (convertScaled (dataRegisters.getD 0 0) rule))
      | DataType.bitfield => convertBitfield (dataRegisters.getD 0 0) rule
      | DataType.bcd =>
        JSValue.number (JSNumber.finite ((convertBCD (dataRegisters.getD 0 0) rule.byteOrder : ℕ) : ℚ))
    let value1 : JSValue :=
      match rule.unitConversion, value0 with
      | some conv, JSValue.number x => JSValue.number (applyUnitConversion x conv)
      | _, _ => value0
    let value2E : Except String JSValue :=
      match rule.decimalPlaces, value1 with
      | some d, JSValue.number x => (jsToFixedNumber x d).map JSValue.number
      | _, _ => Except.ok value1
    match value2E with
    | Except.error msg => Except.error msg
    | Except.ok value2 =>
      let vres : Bool × Option String :=
        match rule.validation with
        | some v => if v.enabled then validateValue value2 v else (true, none)
        | none => (true, none)
      Except.ok
        { name := rule.name, value := value2, originalValue := originalValue
          dataType := rule.dataType, valid := vres.1, error := vres.2
          metadata := some metadata }

/-- DataConversionUtils.convertData: the try-block with its catch, which
converts any failure into an invalid result carrying the message. -/
def convertData (registers : List ℕ) (rule : ConversionRule) : ConversionResult :=
  match convertDataE registers rule with
  | Except.ok r => r
  | Except.error msg =>
    { name := rule.name, value := JSValue.null, originalValue := JSValue.null
      dataType := rule.dataType, valid := false, error := some msg
      metadata := some { byteOrder := rule.byteOrder } }

/-- DataConversionUtils.convertMultiple: one convertData call per rule. -/
def convertMultiple (registers : List ℕ) (rules : List ConversionRule) :
    List ConversionResult :=
  rules.map (fun rule => convertData registers rule)

/-! Embedding of ValidationUtils.ts. -/

/-- ValidationResult of ValidationUtils.ts. -/
structure ValidationResult where
  valid : Bool
  errors : List String
  warnings : List String
deriving DecidableEq, Repr

/-- The JS String.trim on the character list, defined structurally so that
concrete instances evaluate inside proofs. The exact whitespace set of JS
differs from the Lean one only on exotic code points no rule name uses. -/
def strTrim (s : String) : String :=
  String.mk (((s.data.dropWhile Char.isWhitespace).reverse.dropWhile
    Char.isWhitespace).reverse)

/-- The JS String.toLowerCase on the character list, defined structurally. -/
def strToLower (s : String) : String :=
  String.mk (s.data.map Char.toLower)

/-- ValidationUtils.validateConversionRule, accumulating errors and warnings
in source order. The startRegister, dataType and byteOrder presence checks
of the source cannot fire in this typed model (the fields are total), and
the unsupported-data-type default branch is unreachable for the closed
union; both are noted here rather than transcribed. The inner quotes of the
from/to message are omitted. -/
def validateConversionRule (rule : ConversionRule) (index : ℕ) : ValidationResult :=
  let rulePre := "Rule " ++ toString (index + 1) ++ ": "
  let nameErrors : List String :=
    if strTrim rule.name = "" then [rulePre ++ "Name is required"] else []
  let typeErrors : List String :=
    match rule.dataType with
    | DataType.bitfield =>
      (if rule.bitMask = none ∧ rule.bitPosition = none then
        [rulePre ++ "Bitfield conversion requires bit mask or bit position"] else []) ++
      (match rule.bitPosition with
       | some p => if 15 < p then [rulePre ++ "Bit position must be between 0 and 15"] else []
       | none => []) ++
      (match rule.bitLength with
       | some l => if l < 1 ∨ 16 < l then [rulePre ++ "Bit length must be between 1 and 16"] else []
       | none => [])
    | _ => []
  let typeWarnings : List String :=
    match rule.dataType with
    | DataType.scaled =>
      if rule.scaleFactor = none ∧ rule.offset = none then
        [rulePre ++ "Scaled conversion without scale factor or offset"] else []
    | _ => []
  let validationErrors : List String :=
    match rule.validation with
    | some v =>
      if v.enabled then
        match v.min, v.max with
        | some mn, some mx =>
          if mx < mn then [rulePre ++ "Validation minimum cannot be greater than maximum"] else []
        | _, _ => []
      else []
    | none => []
  let unitErrors : List String :=
    match rule.unitConversion with
    | some u =>
      if u.fromUnit = "" ∨ u.toUnit = "" then
        [rulePre ++ "Unit conversion requires both from and to units"] else []
    | none => []
  let unitWarnings : List String :=
    match rule.unitConversion with
    | some u =>
      if u.fromUnit = u.toUnit then
        [rulePre ++ "Unit conversion from and to are the same"] else []
    | none => []
  let decimalErrors : List String :=
    match rule.decimalPlaces with
    | some d =>
      if d < 0 ∨ 10 < d then [rulePre ++ "Decimal places must be between 0 and 10"] else []
    | none => []
  let errors := nameErrors ++ typeErrors ++ validationErrors ++ unitErrors ++ decimalErrors
  let warnings := typeWarnings ++ unitWarnings
  { valid := errors.isEmpty, errors := errors, warnings := warnings }

/-- A register window entry of ValidationUtils.checkRegisterOverlaps. The
source field name end is a Lean keyword, hence stop. -/
structure RegisterRange where
  name : String
  start : ℕ
  stop : ℕ
deriving DecidableEq, Repr

/-- ValidationUtils.getRegistersNeeded. -/
def getRegistersNeeded : DataType → ℕ
  | DataType.int16 => 1
  | DataType.uint16 => 1
  | DataType.scaled => 1
  | DataType.bitfield => 1
  | DataType.bcd => 1
  | DataType.int32 => 2
  | DataType.uint32 => 2
  | DataType.float32 => 2

/-- ValidationUtils.rangesOverlap. -/
def rangesOverlap (range1 range2 : RegisterRange) : Bool :=
  decide (range1.start ≤ range2.stop ∧ range2.start ≤ range1.stop)

/-- The register range built for one rule inside checkRegisterOverlaps. In
this typed model startRegister and dataType are always present, so every
rule contributes a range. -/
def ruleRange (rule : ConversionRule) : RegisterRange :=
  { name := rule.name
    start := rule.startRegister
    stop := rule.startRegister + getRegistersNeeded rule.dataType - 1 }

/-- The nested index loops of checkRegisterOverlaps: for every i, every
j greater than i in order, emit the pair message when the ranges overlap. -/
def overlapPairs : List RegisterRange → List String
  | [] => []
  | r :: rest =>
    (rest.filter (fun r2 => rangesOverlap r r2)).map
      (fun r2 => r.name ++ " and " ++ r2.name) ++ overlapPairs rest

/-- ValidationUtils.checkRegisterOverlaps. -/
def checkRegisterOverlaps (rules : List ConversionRule) : List String :=
  overlapPairs (rules.map ruleRange)

/-- The per-rule error accumulation of validateConversionRules. -/
def allRuleErrors (rules : List ConversionRule) : List String :=
  (rules.enum.map (fun p => (validateConversionRule p.2 p.1).errors)).flatten

/-- The per-rule warning accumulation of validateConversionRules. -/
def allRuleWarnings (rules : List ConversionRule) : List String :=
  (rules.enum.map (fun p => (validateConversionRule p.2 p.1).warnings)).flatten

/-- The duplicate-name check of validateConversionRules: trimmed lowercased
names, empty ones dropped, an entry is a duplicate when its first occurrence
is at an earlier index; the message lists each duplicate once. -/
def duplicateNameErrors (rules : List ConversionRule) : List String :=
  let names := (rules.map (fun r => strToLower (strTrim r.name))).filter (fun n => n ≠ "")
  let duplicateNames :=
    (names.enum.filter (fun p => names.indexOf p.2 ≠ p.1)).map (fun p => p.2)
  if duplicateNames.isEmpty then []
  else ["Duplicate conversion names found: " ++
    String.intercalate ", " duplicateNames.eraseDups]

/-- The overlap warning of validateConversionRules. -/
def overlapWarningList (rules : List ConversionRule) : List String :=
  let overlaps := checkRegisterOverlaps rules
  if overlaps.isEmpty then []
  else ["Register overlaps detected: " ++ String.intercalate ", " overlaps]

/-- ValidationUtils.validateConversionRules. The Array.isArray guard of the
source cannot fail for a typed list and is not transcribed. -/
def validateConversionRules (rules : List ConversionRule) : ValidationResult :=
  if rules.isEmpty then
    { valid := false, errors := ["At least one conversion rule is required"], warnings := [] }
  else
    let errors := allRuleErrors rules ++ duplicateNameErrors rules
    let warnings := allRuleWarnings rules ++ overlapWarningList rules
    { valid := errors.isEmpty, errors := errors, warnings := warnings }

/-! Embedding of the IndustrialUnits catalog (class IndustrialUnits). Only
the directed conversion list and the convert entry points matter to the
claims; the unit descriptions are not needed. -/

/-- UnitConversionFunction of IndustrialUnits.ts. The source field names
from and to are Lean keywords, hence fromUnit and toUnit. -/
structure UnitConversionFunction where
  fromUnit : String
  toUnit : String
  convert : JSNumber → JSNumber
  formula : String

/-- Shorthand used when transcribing the arrow functions of the table. -/
def jn (q : ℚ) : JSNumber := JSNumber.finite q

/-- IndustrialUnits.CONVERSIONS: the fixed list of directed conversion
formulas, transcribed entry by entry with the source constants as exact
rationals. -/
def CONVERSIONS : List UnitConversionFunction :=
  [ { fromUnit := "celsius", toUnit := "fahrenheit"
      convert := fun val => ((val.mul (jn 9)).div (jn 5)).add (jn 32)
      formula := "(C x 9/5) + 32" }
  , { fromUnit := "fahrenheit", toUnit := "celsius"
      convert := fun val => ((val.sub (jn 32)).mul (jn 5)).div (jn 9)
      formula := "(F - 32) x 5/9" }
  , { fromUnit := "celsius", toUnit := "kelvin"
      convert := fun val => val.add (jn (27315 / 100))
      formula := "C + 273.15" }
  , { fromUnit := "kelvin", toUnit := "celsius"
      convert := fun val => val.sub (jn (27315 / 100))
      formula := "K - 273.15" }
  , { fromUnit := "fahrenheit", toUnit := "kelvin"
      convert := fun val => (((val.sub (jn 32)).mul (jn 5)).div (jn 9)).add (jn (27315 / 100))
      formula := "(F - 32) x 5/9 + 273.15" }
  , { fromUnit := "kelvin", toUnit := "fahrenheit"
      convert := fun val => (((val.sub (jn (27315 / 100))).mul (jn 9)).div (jn 5)).add (jn 32)
      formula := "(K - 273.15) x 9/5 + 32" }
  , { fromUnit := "celsius", toUnit := "rankine"
      convert := fun val => ((val.add (jn (27315 / 100))).mul (jn 9)).div (jn 5)
      formula := "(C + 273.15) x 9/5" }
  , { fromUnit := "rankine", toUnit := "celsius"
      convert := fun val => ((val.mul (jn 5)).div (jn 9)).sub (jn (27315 / 100))
      formula := "R x 5/9 - 273.15" }
  , { fromUnit := "pascal", toUnit := "bar"
      convert := fun val => val.mul (jn (1 / 100000))
      formula := "Pa x 1e-5" }
  , { fromUnit := "bar", toUnit := "pascal"
      convert := fun val => val.mul (jn 100000)
      formula := "bar x 1e5" }
  , { fromUnit := "psi", toUnit := "bar"
      convert := fun val => val.mul (jn (689476 / 10000000))
      formula := "psi x 0.0689476" }
  , { fromUnit := "bar", toUnit := "psi"
      convert := fun val => val.mul (jn (145038 / 10000))
      formula := "bar x 14.5038" }
  , { fromUnit := "pascal", toUnit := "psi"
      convert := fun val => val.mul (jn (145038 / 1000000000))
      formula := "Pa x 0.000145038" }
  , { fromUnit := "psi", toUnit := "pascal"
      convert := fun val => val.mul (jn (689476 / 100))
      formula := "psi x 6894.76" }
  , { fromUnit := "bar", toUnit := "atm"
      convert := fun val => val.mul (jn (986923 / 1000000))
      formula := "bar x 0.986923" }
  , { fromUnit := "atm", toUnit := "bar"
      convert := fun val => val.mul (jn (101325 / 100000))
      formula := "atm x 1.01325" }
  , { fromUnit := "mmhg", toUnit := "pascal"
      convert := fun val => val.mul (jn (133322 / 1000))
      formula := "mmHg x 133.322" }
  , { fromUnit := "pascal", toUnit := "mmhg"
      convert := fun val => val.mul (jn (750062 / 100000000))
      formula := "Pa x 0.00750062" }
  , { fromUnit := "gpm", toUnit := "lpm"
      convert := fun val => val.mul (jn (378541 / 100000))
      formula := "gpm x 3.78541" }
  , { fromUnit := "lpm", toUnit := "gpm"
      convert := fun val => val.mul (jn (264172 / 1000000))
      formula := "L/min x 0.264172" }
  , { fromUnit := "cfm", toUnit := "cmh"
      convert := fun val => val.mul (jn (169901 / 100000))
      formula := "cfm x 1.69901" }
  , { fromUnit := "cmh", toUnit := "cfm"
      convert := fun val => val.mul (jn (588578 / 1000000))
      formula := "cmh x 0.588578" }
  , { fromUnit := "lpm", toUnit := "lps"
      convert := fun val => val.div (jn 60)
      formula := "L/min / 60" }
  , { fromUnit := "lps", toUnit := "lpm"
      convert := fun val => val.mul (jn 60)
      formula := "L/s x 60" }
  , { fromUnit := "cmh", toUnit := "cms"
      convert := fun val => val.div (jn 3600)
      formula := "cmh / 3600" }
  , { fromUnit := "cms", toUnit := "cmh"
      convert := fun val => val.mul (jn 3600)
      formula := "cms x 3600" }
  , { fromUnit := "watt", toUnit := "kilowatt"
      convert := fun val => val.div (jn 1000)
      formula := "W / 1000" }
  , { fromUnit := "kilowatt", toUnit := "watt"
      convert := fun val => val.mul (jn 1000)
      formula := "kW x 1000" }
  , { fromUnit := "horsepower", toUnit := "kilowatt"
      convert := fun val => val.mul (jn (745699 / 1000000))
      formula := "hp x 0.745699" }
  , { fromUnit := "kilowatt", toUnit := "horsepower"
      convert := fun val => val.mul (jn (134102 / 100000))
      formula := "kW x 1.34102" }
  , { fromUnit := "btu_h", toUnit := "kilowatt"
      convert := fun val => val.mul (jn (293071 / 1000000000))
      formula := "BTU/h x 0.000293071" }
  , { fromUnit := "kilowatt", toUnit := "btu_h"
      convert := fun val => val.mul (jn (341214 / 100))
      formula := "kW x 3412.14" }
  , { fromUnit := "ton_refrigeration", toUnit := "kilowatt"
      convert := fun val => val.mul (jn (351685 / 100000))
      formula := "TR x 3.51685" }
  , { fromUnit := "kilowatt", toUnit := "ton_refrigeration"
      convert := fun val => val.mul (jn (284345 / 1000000))
      formula := "kW x 0.284345" }
  , { fromUnit := "joule", toUnit := "kilowatt_hour"
      convert := fun val => val.div (jn 3600000)
      formula := "J / 3.6e6" }
  , { fromUnit := "kilowatt_hour", toUnit := "joule"
      convert := fun val => val.mul (jn 3600000)
      formula := "kWh x 3.6e6" }
  , { fromUnit := "btu", toUnit := "joule"
      convert := fun val => val.mul (jn (105506 / 100))
      formula := "BTU x 1055.06" }
  , { fromUnit := "joule", toUnit := "btu"
      convert := fun val => val.div (jn (105506 / 100))
      formula := "J / 1055.06" }
  , { fromUnit := "calorie", toUnit := "joule"
      convert := fun val => val.mul (jn (4184 / 1000))
      formula := "cal x 4.184" }
  , { fromUnit := "joule", toUnit := "calorie"
      convert := fun val => val.div (jn (4184 / 1000))
      formula := "J / 4.184" }
  , { fromUnit := "meter", toUnit := "foot"
      convert := fun val => val.mul (jn (328084 / 100000))
      formula := "m x 3.28084" }
  , { fromUnit := "foot", toUnit := "meter"
      convert := fun val => val.mul (jn (3048 / 10000))
      formula := "ft x 0.3048" }
  , { fromUnit := "inch", toUnit := "meter"
      convert := fun val => val.mul (jn (254 / 10000))
      formula := "in x 0.0254" }
  , { fromUnit := "meter", toUnit := "inch"
      convert := fun val => val.mul (jn (393701 / 10000))
      formula := "m x 39.3701" }
  , { fromUnit := "millimeter", toUnit := "meter"
      convert := fun val => val.div (jn 1000)
      formula := "mm / 1000" }
  , { fromUnit := "meter", toUnit := "millimeter"
      convert := fun val => val.mul (jn 1000)
      formula := "m x 1000" }
  , { fromUnit := "centimeter", toUnit := "meter"
      convert := fun val => val.div (jn 100)
      formula := "cm / 100" }
  , { fromUnit := "meter", toUnit := "centimeter"
      convert := fun val => val.mul (jn 100)
      formula := "m x 100" }
  , { fromUnit := "kilogram", toUnit := "pound"
      convert := fun val => val.mul (jn (220462 / 100000))
      formula := "kg x 2.20462" }
  , { fromUnit := "pound", toUnit := "kilogram"
      convert := fun val => val.mul (jn (453592 / 1000000))
      formula := "lb x 0.453592" }
  , { fromUnit := "gram", toUnit := "kilogram"
      convert := fun val => val.div (jn 1000)
      formula := "g / 1000" }
  , { fromUnit := "kilogram", toUnit := "gram"
      convert := fun val => val.mul (jn 1000)
      formula := "kg x 1000" }
  , { fromUnit := "ounce", toUnit := "kilogram"
      convert := fun val => val.mul (jn (283495 / 10000000))
      formula := "oz x 0.0283495" }
  , { fromUnit := "kilogram", toUnit := "ounce"
      convert := fun val => val.mul (jn (35274 / 1000))
      formula := "kg x 35.274" }
  , { fromUnit := "ton", toUnit := "kilogram"
      convert := fun val => val.mul (jn 1000)
      formula := "t x 1000" }
  , { fromUnit := "kilogram", toUnit := "ton"
      convert := fun val => val.div (jn 1000)
      formula := "kg / 1000" }
  , { fromUnit := "liter", toUnit := "gallon"
      convert := fun val => val.mul (jn (264172 / 1000000))
      formula := "L x 0.264172" }
  , { fromUnit := "gallon", toUnit := "liter"
      convert := fun val => val.mul (jn (378541 / 100000))
      formula := "gal x 3.78541" }
  , { fromUnit := "cubic_meter", toUnit := "cubic_foot"
      convert := fun val => val.mul (jn (353147 / 10000))
      formula := "m3 x 35.3147" }
  , { fromUnit := "cubic_foot", toUnit := "cubic_meter"
      convert := fun val => val.mul (jn (283168 / 10000000))
      formula := "ft3 x 0.0283168" }
  , { fromUnit := "barrel", toUnit := "liter"
      convert := fun val => val.mul (jn (158987 / 1000))
      formula := "bbl x 158.987" }
  , { fromUnit := "liter", toUnit := "barrel"
      convert := fun val => val.div (jn (158987 / 1000))
      formula := "L / 158.987" }
  ]

/-- The find over CONVERSIONS used by IndustrialUnits.convert for a given
direction. -/
def findConversion (fromUnit toUnit : String) : Option UnitConversionFunction :=
  CONVERSIONS.find? (fun conv => conv.fromUnit == fromUnit && conv.toUnit == toUnit)

/-- IndustrialUnits.inverseConvert: evaluate the reverse formula at 1 and
scale by the reciprocal. -/
def inverseConvert (value : JSNumber) (conversion : UnitConversionFunction) : JSNumber :=
  let testValue := jn 1
  let convertedTest := conversion.convert testValue
  let factor := testValue.div convertedTest
  value.mul factor

/-- IndustrialUnits.convert: identity on equal units, else direct entry,
else inverted reverse entry, else a thrown error, modelled in the Except
error channel. -/
def industrialConvert (value : JSNumber) (fromUnit toUnit : String) :
    Except String JSNumber :=
  if fromUnit == toUnit then Except.ok value
  else
    match findConversion fromUnit toUnit with
    | some conversion => Except.ok (conversion.convert value)
    | none =>
      match findConversion toUnit fromUnit with
      | some reverseConversion => Except.ok (inverseConvert value reverseConversion)
      | none =>
        Except.error ("No conversion available from " ++ fromUnit ++ " to " ++ toUnit)

/-- Modelled from the spec: the unit-conversion step of the converter module
nodes/ModbusDataConverter/DataConversionUtils.ts, which is not among the
provided sources (only its callers and the IndustrialUnits catalog are).
Per the spec, the catalog failure for a pair with neither a direct nor a
reverse entry is not propagated: the value passes through unchanged and a
no-conversion-available note is recorded in metadata instead. -/
def unitConversionStep (value : JSNumber) (fromUnit toUnit : String) :
    JSNumber × Option String :=
  match industrialConvert value fromUnit toUnit with
  | Except.ok v => (v, none)
  | Except.error _ => (value, some "no conversion available")

/-! Statement-side helpers and concrete inputs used by the theorems. -/

/-- Statement-side helper: the word selected as first by the word swap, as
the spec phrases the two-word assembly. -/
def specFirst (w0 w1 : ℕ) (ws : Bool) : ℕ := if ws then w1 else w0

/-- Statement-side helper: the word selected as second by the word swap. -/
def specSecond (w0 w1 : ℕ) (ws : Bool) : ℕ := if ws then w0 else w1

/-- Statement-side helper: the high half selected by the byte order. -/
def specHigh (w0 w1 : ℕ) (bo : ByteOrder) (ws : Bool) : ℕ :=
  if bo = ByteOrder.big_endian then specFirst w0 w1 ws else specSecond w0 w1 ws

/-- Statement-side helper: the low half selected by the byte order. -/
def specLow (w0 w1 : ℕ) (bo : ByteOrder) (ws : Bool) : ℕ :=
  if bo = ByteOrder.big_endian then specSecond w0 w1 ws else specFirst w0 w1 ws

/-- Concrete rule reaching the catch of convertData: the decimalPlaces value
101 makes toFixed throw. -/
def c1Rule : ConversionRule :=
  { name := "t", startRegister := 0, dataType := DataType.int16
    byteOrder := ByteOrder.big_endian, decimalPlaces := some 101 }

/-- Concrete rule for the insufficient-registers path: int32 needs two
registers. -/
def c5Rule : ConversionRule :=
  { name := "r", startRegister := 0, dataType := DataType.int32
    byteOrder := ByteOrder.big_endian }

/-- Rule A of the overlap example of the spec: float32 at register 0. -/
def c7RuleA : ConversionRule :=
  { name := "A", startRegister := 0, dataType := DataType.float32
    byteOrder := ByteOrder.big_endian }

/-- Rule B of the overlap example of the spec: int16 at register 1. -/
def c7RuleB : ConversionRule :=
  { name := "B", startRegister := 1, dataType := DataType.int16
    byteOrder := ByteOrder.big_endian }

/-! Arithmetic facts about the 32-bit assembly. -/

/-- The JS assembly (first << 16) | second equals high times 2 to the 16
plus low when both operands are 16-bit words. -/
theorem assemble_eq (a b : ℕ) (ha : a < 65536) (hb : b < 65536) :
    jsOr32 (jsShl16 a) b = a * 65536 + b := by
  have hshl : jsShl16 a = a * 65536 := by
    unfold jsShl16 pat32
    rw [Nat.mod_eq_of_lt (show a < 4294967296 by omega), Nat.shiftLeft_eq]
    rw [show (2 : ℕ) ^ 16 = 65536 from by norm_num]
    exact Nat.mod_eq_of_lt (by omega)
  unfold jsOr32 pat32
  rw [hshl, Nat.mod_eq_of_lt (show a * 65536 < 4294967296 by omega),
      Nat.mod_eq_of_lt (show b < 4294967296 by omega)]
  have hb2 : b < 2 ^ 16 := by omega
  have h := Nat.mul_add_lt_is_or hb2 a
  rw [show (2 : ℕ) ^ 16 = 65536 from by norm_num, Nat.mul_comm 65536 a] at h
  exact h.symm

/-- Reading a 32-bit pattern as signed, stated without the inner mod. -/
theorem toSigned32_eq (n : ℕ) (h : n < 4294967296) :
    toSigned32 n = if 2147483647 < n then (n : ℤ) - 4294967296 else (n : ℤ) := by
  unfold toSigned32
  rw [Nat.mod_eq_of_lt h]

/-- Combined facts about one assembled pair: the unsigned value, its bound,
the signed reading, and the signed upper bound. -/
theorem convert32_core (a b : ℕ) (ha : a < 65536) (hb : b < 65536) :
    jsOr32 (jsShl16 a) b = a * 65536 + b ∧
    jsOr32 (jsShl16 a) b < 4294967296 ∧
    toSigned32 (jsOr32 (jsShl16 a) b) =
      (if 2147483647 < jsOr32 (jsShl16 a) b then ((jsOr32 (jsShl16 a) b : ℕ) : ℤ) - 4294967296
       else ((jsOr32 (jsShl16 a) b : ℕ) : ℤ)) ∧
    toSigned32 (jsOr32 (jsShl16 a) b) ≤ 2147483647 := by
  have he := assemble_eq a b ha hb
  have hlt : jsOr32 (jsShl16 a) b < 4294967296 := by rw [he]; omega
  refine ⟨he, hlt, toSigned32_eq _ hlt, ?_⟩
  rw [toSigned32_eq _ hlt]
  split <;> omega

/-! Claim theorems. -/

/-- C2: decoding a 16-bit word with dataType int16 yields w - 65536 when w
exceeds 32767 and w otherwise, and the decoded value always lies in the
signed 16-bit range. -/
theorem convertInt16_reinterpret (w : ℕ) (bo : ByteOrder) (h : w ≤ 65535) :
    convertInt16 w bo = (if 32767 < w then (w : ℤ) - 65536 else (w : ℤ)) ∧
    -32768 ≤ convertInt16 w bo ∧ convertInt16 w bo ≤ 32767 := by
  refine ⟨rfl, ?_, ?_⟩ <;> (unfold convertInt16; split <;> omega)

/-- Witness for C2 at the word 40000. -/
theorem convertInt16_reinterpret_witness :
    (40000 : ℕ) ≤ 65535 ∧
    (convertInt16 40000 ByteOrder.big_endian =
        (if 32767 < (40000 : ℕ) then ((40000 : ℕ) : ℤ) - 65536 else ((40000 : ℕ) : ℤ)) ∧
      -32768 ≤ convertInt16 40000 ByteOrder.big_endian ∧
      convertInt16 40000 ByteOrder.big_endian ≤ 32767) :=
  ⟨by norm_num, convertInt16_reinterpret 40000 ByteOrder.big_endian (by norm_num)⟩

/-- C3: for two 16-bit words and any byte order and word swap, the uint32
decode equals high times 65536 plus low, where first and second are chosen
by the word swap and high and low by the byte order; it lies below 2 to the
32; and the int32 decode is the same assembly reinterpreted as signed
two-complement. -/
theorem convert32_assembly (w0 w1 : ℕ) (bo : ByteOrder) (ws : Bool)
    (h0 : w0 < 65536) (h1 : w1 < 65536) :
    convertUint32 [w0, w1] bo ws =
      specHigh w0 w1 bo ws * 65536 + specLow w0 w1 bo ws ∧
    convertUint32 [w0, w1] bo ws < 4294967296 ∧
    convertInt32 [w0, w1] bo ws =
      (if 2147483647 < convertUint32 [w0, w1] bo ws then
        ((convertUint32 [w0, w1] bo ws : ℕ) : ℤ) - 4294967296
      else ((convertUint32 [w0, w1] bo ws : ℕ) : ℤ)) := by
  cases bo <;> cases ws
  · obtain ⟨he, hlt, hs, hle⟩ := convert32_core w0 w1 h0 h1
    exact ⟨he, hlt, (if_neg (not_lt.mpr hle)).trans hs⟩
  · obtain ⟨he, hlt, hs, hle⟩ := convert32_core w1 w0 h1 h0
    exact ⟨he, hlt, (if_neg (not_lt.mpr hle)).trans hs⟩
  · obtain ⟨he, hlt, hs, hle⟩ := convert32_core w1 w0 h1 h0
    exact ⟨he, hlt, (if_neg (not_lt.mpr hle)).trans hs⟩
  · obtain ⟨he, hlt, hs, hle⟩ := convert32_core w0 w1 h0 h1
    exact ⟨he, hlt, (if_neg (not_lt.mpr hle)).trans hs⟩

/-- Witness for C3 at the words 1 and 2 with big endian and no swap. -/
theorem convert32_assembly_witness :
    (1 : ℕ) < 65536 ∧ (2 : ℕ) < 65536 ∧
    (convertUint32 [1, 2] ByteOrder.big_endian false =
        specHigh 1 2 ByteOrder.big_endian false * 65536 + specLow 1 2 ByteOrder.big_endian false ∧
      convertUint32 [1, 2] ByteOrder.big_endian false < 4294967296 ∧
      convertInt32 [1, 2] ByteOrder.big_endian false =
        (if 2147483647 < convertUint32 [1, 2] ByteOrder.big_endian false then
          ((convertUint32 [1, 2] ByteOrder.big_endian false : ℕ) : ℤ) - 4294967296
        else ((convertUint32 [1, 2] ByteOrder.big_endian false : ℕ) : ℤ))) :=
  ⟨by norm_num, by norm_num,
    convert32_assembly 1 2 ByteOrder.big_endian false (by norm_num) (by norm_num)⟩

/-- C4 counterexample: two distinct words for which two of the four byte
order and word swap combinations coincide, so the four assemblies are not
generally distinct. -/
theorem fourCombos_counterexample :
    (1 : ℕ) ≠ 2 ∧
    convertUint32 [1, 2] ByteOrder.big_endian false =
      convertUint32 [1, 2] ByteOrder.little_endian true ∧
    convertInt32 [1, 2] ByteOrder.big_endian false =
      convertInt32 [1, 2] ByteOrder.little_endian true :=
  ⟨by norm_num, rfl, rfl⟩

/-- C4 (amended): the four byte order and word swap combinations produce at
most two distinct assemblies, since big endian with a swap equals little
endian without one and conversely; the two remaining assemblies are
identical exactly when the two words are equal. -/
theorem fourCombos_pairing (w0 w1 : ℕ) (h0 : w0 < 65536) (h1 : w1 < 65536) :
    convertUint32 [w0, w1] ByteOrder.big_endian false =
      convertUint32 [w0, w1] ByteOrder.little_endian true ∧
    convertUint32 [w0, w1] ByteOrder.big_endian true =
      convertUint32 [w0, w1] ByteOrder.little_endian false ∧
    convertInt32 [w0, w1] ByteOrder.big_endian false =
      convertInt32 [w0, w1] ByteOrder.little_endian true ∧
    convertInt32 [w0, w1] ByteOrder.big_endian true =
      convertInt32 [w0, w1] ByteOrder.little_endian false ∧
    (convertUint32 [w0, w1] ByteOrder.big_endian false =
        convertUint32 [w0, w1] ByteOrder.big_endian true ↔ w0 = w1) := by
  refine ⟨rfl, rfl, rfl, rfl, ?_⟩
  have ha := assemble_eq w0 w1 h0 h1
  have hb := assemble_eq w1 w0 h1 h0
  show jsOr32 (jsShl16 w0) w1 = jsOr32 (jsShl16 w1) w0 ↔ w0 = w1
  rw [ha, hb]
  omega

/-- Witness for the amended C4 at the words 3 and 7. -/
theorem fourCombos_pairing_witness :
    (3 : ℕ) < 65536 ∧ (7 : ℕ) < 65536 ∧
    (convertUint32 [3, 7] ByteOrder.big_endian false =
        convertUint32 [3, 7] ByteOrder.little_endian true ∧
      convertUint32 [3, 7] ByteOrder.big_endian true =
        convertUint32 [3, 7] ByteOrder.little_endian false ∧
      convertInt32 [3, 7] ByteOrder.big_endian false =
        convertInt32 [3, 7] ByteOrder.little_endian true ∧
      convertInt32 [3, 7] ByteOrder.big_endian true =
        convertInt32 [3, 7] ByteOrder.little_endian false ∧
      (convertUint32 [3, 7] ByteOrder.big_endian false =
          convertUint32 [3, 7] ByteOrder.big_endian true ↔ (3 : ℕ) = 7)) :=
  ⟨by norm_num, by norm_num, fourCombos_pairing 3 7 (by norm_num) (by norm_num)⟩

/-- C10: on any two-word window, decoding with little endian and swap s is
identical to decoding with big endian and swap not s, for int32, uint32 and
float32: byte order is only applied at word granularity, so flipping it is
the same as flipping the word swap. -/
theorem byteOrder_wordSwap_flip (w0 w1 : ℕ) (s : Bool) :
    convertInt32 [w0, w1] ByteOrder.little_endian s =
      convertInt32 [w0, w1] ByteOrder.big_endian (!s) ∧
    convertUint32 [w0, w1] ByteOrder.little_endian s =
      convertUint32 [w0, w1] ByteOrder.big_endian (!s) ∧
    convertFloat32 [w0, w1] ByteOrder.little_endian s =
      convertFloat32 [w0, w1] ByteOrder.big_endian (!s) := by
  cases s <;> exact ⟨rfl, rfl, rfl⟩

/-- C9: the BCD decode splits the 16-bit word into bytes, decodes each byte
as ten times the high nibble plus the low nibble, and returns the high byte
value times 100 plus the low byte value. -/
theorem convertBCD_nibbles (w : ℕ) (bo : ByteOrder) (h : w < 65536) :
    convertBCD w bo =
      (w / 256 / 16 * 10 + w / 256 % 16) * 100 + (w % 256 / 16 * 10 + w % 256 % 16) := by
  have hand255 : ∀ x : ℕ, x &&& 255 = x % 256 := fun x => by
    have hx := Nat.and_pow_two_sub_one_eq_mod x 8
    norm_num at hx
    exact hx
  have hand15 : ∀ x : ℕ, x &&& 15 = x % 16 := fun x => by
    have hx := Nat.and_pow_two_sub_one_eq_mod x 4
    norm_num at hx
    exact hx
  simp only [convertBCD, pat32, Nat.mod_eq_of_lt (show w < 4294967296 by omega),
    Nat.shiftRight_eq_div_pow, hand255, hand15]
  norm_num
  omega

/-- Witness for C9: 0x1234 decodes to 1234 and 0x0000 decodes to 0. -/
theorem convertBCD_nibbles_witness :
    convertBCD 4660 ByteOrder.big_endian = 1234 ∧
    convertBCD 0 ByteOrder.big_endian = 0 :=
  ⟨(convertBCD_nibbles 4660 ByteOrder.big_endian (by norm_num)).trans (by norm_num),
   (convertBCD_nibbles 0 ByteOrder.big_endian (by norm_num)).trans (by norm_num)⟩

/-- C5: whenever the register array is shorter than startRegister plus the
footprint of the dataType, convertData returns the early invalid result: no
decode is attempted, the value stays null, and the error reports required
versus available counts. -/
theorem convertData_insufficient (registers : List ℕ) (rule : ConversionRule)
    (h : registers.length < rule.startRegister + getRequiredRegisters rule.dataType) :
    convertData registers rule =
      { name := rule.name, value := JSValue.null, originalValue := JSValue.null
        dataType := rule.dataType, valid := false
        error := some (insufficientMessage (getRequiredRegisters rule.dataType)
          ((registers.length : ℤ) - (rule.startRegister : ℤ)))
        metadata := some (convertDataMetadata rule) } := by
  simp only [convertData, convertDataE]
  rw [if_pos h]

/-- Witness for C5: one register offered to an int32 rule needing two. -/
theorem convertData_insufficient_witness :
    convertData [10] c5Rule =
      { name := "r", value := JSValue.null, originalValue := JSValue.null
        dataType := DataType.int32, valid := false
        error := some "Not enough registers available. Required: 2, Available: 1"
        metadata := some { byteOrder := ByteOrder.big_endian } } :=
  (convertData_insufficient [10] c5Rule (by decide)).trans (by decide)

/-- C1: convertData is total, and whenever the decode pipeline fails the
failure is caught and turned into an invalid result that carries the
failure message, so one rule can never abort a batch. -/
theorem convertData_catches (registers : List ℕ) (rule : ConversionRule) (msg : String)
    (h : convertDataE registers rule = Except.error msg) :
    convertData registers rule =
      { name := rule.name, value := JSValue.null, originalValue := JSValue.null
        dataType := rule.dataType, valid := false, error := some msg
        metadata := some { byteOrder := rule.byteOrder } } := by
  unfold convertData
  rw [h]

/-- Witness for C1: a decimalPlaces of 101 makes toFixed throw inside the
pipeline, and the result still reports the failure as an invalid result. -/
theorem convertData_catches_witness :
    convertDataE [0] c1Rule =
      Except.error "toFixed() digits argument must be between 0 and 100" ∧
    convertData [0] c1Rule =
      { name := "t", value := JSValue.null, originalValue := JSValue.null
        dataType := DataType.int16, valid := false
        error := some "toFixed() digits argument must be between 0 and 100"
        metadata := some { byteOrder := ByteOrder.big_endian } } :=
  ⟨rfl, (convertData_catches [0] c1Rule _ rfl).trans (by decide)⟩

/-- C6: convertMultiple yields exactly one result per rule, in rule order,
and each entry is convertData of the register snapshot and that rule alone,
so the outcome of one rule never influences another. -/
theorem convertMultiple_pointwise (registers : List ℕ) (rules : List ConversionRule) :
    (convertMultiple registers rules).length = rules.length ∧
    ∀ i : ℕ, (convertMultiple registers rules)[i]? =
      (rules[i]?).map (fun rule => convertData registers rule) := by
  refine ⟨by simp [convertMultiple], fun i => ?_⟩
  simp [convertMultiple]

/-- Membership in the nested-loop overlap scan: any overlapping pair at
positions i before j contributes its message. -/
theorem mem_overlapPairs (l : List RegisterRange) (i j : ℕ)
    (hi : i < l.length) (hj : j < l.length) (hij : i < j)
    (hov : rangesOverlap (l.get ⟨i, hi⟩) (l.get ⟨j, hj⟩) = true) :
    ((l.get ⟨i, hi⟩).name ++ " and " ++ (l.get ⟨j, hj⟩).name) ∈ overlapPairs l := by
  induction l generalizing i j with
  | nil => exact absurd hi (by simp)
  | cons r rest ih =>
    have hlen : (r :: rest).length = rest.length + 1 := by simp
    cases i with
    | zero =>
      cases j with
      | zero => omega
      | succ j2 =>
        have hj2 : j2 < rest.length := by omega
        unfold overlapPairs
        apply List.mem_append.mpr
        left
        apply List.mem_map.mpr
        refine ⟨rest.get ⟨j2, hj2⟩, List.mem_filter.mpr ⟨List.get_mem rest j2 hj2, ?_⟩, rfl⟩
        exact hov
    | succ i2 =>
      cases j with
      | zero => omega
      | succ j2 =>
        have hi2 : i2 < rest.length := by omega
        have hj2 : j2 < rest.length := by omega
        unfold overlapPairs
        apply List.mem_append.mpr
        right
        exact ih i2 j2 hi2 hj2 (by omega) hov

/-- C7: any two rules at positions i before j whose register windows
intersect contribute a warning string naming both rules; the warnings of
validateConversionRules then carry the overlap message, while the error
list and the validity verdict are exactly the per-rule errors plus the
duplicate-name errors, unaffected by overlaps. -/
theorem overlap_warns_never_errors (rules : List ConversionRule) (i j : ℕ)
    (hi : i < rules.length) (hj : j < rules.length) (hij : i < j)
    (hov : rangesOverlap (ruleRange (rules.get ⟨i, hi⟩)) (ruleRange (rules.get ⟨j, hj⟩)) = true) :
    ((rules.get ⟨i, hi⟩).name ++ " and " ++ (rules.get ⟨j, hj⟩).name) ∈
      checkRegisterOverlaps rules ∧
    (validateConversionRules rules).warnings =
      allRuleWarnings rules ++
        ["Register overlaps detected: " ++
          String.intercalate ", " (checkRegisterOverlaps rules)] ∧
    (validateConversionRules rules).errors =
      allRuleErrors rules ++ duplicateNameErrors rules ∧
    ((validateConversionRules rules).valid = true ↔
      allRuleErrors rules ++ duplicateNameErrors rules = []) := by
  have hi2 : i < (rules.map ruleRange).length := by simpa using hi
  have hj2 : j < (rules.map ruleRange).length := by simpa using hj
  have hget : ∀ (k : ℕ) (hk : k < rules.length) (hk2 : k < (rules.map ruleRange).length),
      (rules.map ruleRange).get ⟨k, hk2⟩ = ruleRange (rules.get ⟨k, hk⟩) := by
    intro k hk hk2
    simp
  have hmem : ((rules.get ⟨i, hi⟩).name ++ " and " ++ (rules.get ⟨j, hj⟩).name) ∈
      checkRegisterOverlaps rules := by
    have h := mem_overlapPairs (rules.map ruleRange) i j hi2 hj2 hij
      (by rw [hget i hi hi2, hget j hj hj2]; exact hov)
    rw [hget i hi hi2, hget j hj hj2] at h
    exact h
  have hne : rules.isEmpty = false := by
    cases rules with
    | nil => exact absurd hi (by simp)
    | cons a l => rfl
  have hover : (checkRegisterOverlaps rules).isEmpty = false := by
    cases hco : checkRegisterOverlaps rules with
    | nil => rw [hco] at hmem; exact absurd hmem (by simp)
    | cons a l => rfl
  refine ⟨hmem, ?_, ?_, ?_⟩
  · simp only [validateConversionRules, hne, Bool.false_eq_true, if_false,
      overlapWarningList, hover]
  · simp only [validateConversionRules, hne, Bool.false_eq_true, if_false]
  · simp only [validateConversionRules, hne, Bool.false_eq_true, if_false,
      List.isEmpty_eq_true]

/-- Witness for C7: the float32 rule at register 0 and the int16 rule at
register 1 are reported as overlapping, as a warning only, and the rule set
stays valid. -/
theorem overlap_warns_never_errors_witness :
    ("A and B") ∈ checkRegisterOverlaps [c7RuleA, c7RuleB] ∧
    (validateConversionRules [c7RuleA, c7RuleB]).warnings =
      ["Register overlaps detected: A and B"] ∧
    (validateConversionRules [c7RuleA, c7RuleB]).valid = true := by
  have h := overlap_warns_never_errors [c7RuleA, c7RuleB] 0 1
    (by norm_num) (by norm_num) (by norm_num) (by decide)
  refine ⟨h.1, ?_, h.2.2.2.mpr (by decide)⟩
  rw [h.2.1]
  decide

/-- C8: for a numeric value and a unit pair with neither a direct nor a
reverse entry in the conversion table, the catalog lookup fails with the
no-conversion message and the unit-conversion step passes the value through
unchanged while recording the no-conversion note instead of failing. -/
theorem unitConversion_pass_through (value : JSNumber) (fromUnit toUnit : String)
    (hne : fromUnit ≠ toUnit)
    (hdir : findConversion fromUnit toUnit = none)
    (hrev : findConversion toUnit fromUnit = none) :
    industrialConvert value fromUnit toUnit =
      Except.error ("No conversion available from " ++ fromUnit ++ " to " ++ toUnit) ∧
    unitConversionStep value fromUnit toUnit = (value, some "no conversion available") := by
  have hbe : (fromUnit == toUnit) = false := beq_eq_false_iff_ne.mpr hne
  have h1 : industrialConvert value fromUnit toUnit =
      Except.error ("No conversion available from " ++ fromUnit ++ " to " ++ toUnit) := by
    simp only [industrialConvert, hbe, Bool.false_eq_true, if_false, hdir, hrev]
  exact ⟨h1, by unfold unitConversionStep; rw [h1]⟩

/-- Witness for C8: no entry relates celsius and psi in either direction,
and the step passes the value 5 through with the note. -/
theorem unitConversion_pass_through_witness :
    ("celsius" : String) ≠ "psi" ∧
    unitConversionStep (JSNumber.finite 5) "celsius" "psi" =
      (JSNumber.finite 5, some "no conversion available") :=
  ⟨by decide,
    (unitConversion_pass_through (JSNumber.finite 5) "celsius" "psi"
      (by decide) rfl rfl).2⟩

end ModbusVerify
